import Mathlib

/-!
Shallow embedding of the pymoku signal-generator register layer
(`pymoku/_siggen.py`) and the staging / commit model of its instrument
state, with theorems checking the specification's claims about it.

Conventions of the embedding:
* Python unbounded non-negative integers are `ℕ`; Python floats are `ℚ`
  (all constants of the source are exactly representable).
* Python bitwise expressions are transcribed with Python's operator
  precedence made explicit by parentheses: in Python `<<`/`>>` bind
  tighter than `&`, which binds tighter than `|`, and all of those bind
  tighter than the conditional expression.  Several decode lambdas of the
  source rely on this in surprising ways (e.g. `rval & 2 >> 1` is
  `rval & (2 >> 1)`); the transcription keeps the source's parse, not its
  apparent intent.
* `old & ~mask` on non-negative Python ints clears the bits of `mask`;
  it is embedded as `andNot old mask = old - (old &&& mask)`.
* Fallible Python code returns `Except PyErr`; a handler lambda that
  returns Python `None` returns `Option.none`.
-/

/-- Python runtime errors that the embedded code can raise. -/
inductive PyErr where
  | valueOutOfRange (msg : String)
  | zeroDivisionError
  | typeError
deriving DecidableEq, Repr

deriving instance DecidableEq for Except

/-- Python values as far as the handler lambdas need them: ints, floats
and the `(high, low)` register pairs handed to multi-word handlers. -/
inductive PyVal where
  | int (n : ℕ)
  | float (q : ℚ)
  | pair (a b : ℕ)
deriving DecidableEq, Repr

/-- Python `&`: defined on a pair of ints, a `TypeError` on anything else
(in particular on `tuple & int`, which `mod1_frequency`'s encode performs,
and on `int & float`, which `out1_amp_pc`'s decode performs). -/
def pyAnd : PyVal → PyVal → Except PyErr PyVal
  | .int a, .int b => .ok (.int (a &&& b))
  | _, _ => .error .typeError

/-- Python `>>`: defined on a pair of ints, a `TypeError` otherwise
(in particular on `int >> float`, which `out2_amp_pc`'s decode performs). -/
def pyShr : PyVal → PyVal → Except PyErr PyVal
  | .int a, .int b => .ok (.int (a >>> b))
  | _, _ => .error .typeError

/-- Coerce a `PyVal` known to be an int, a `TypeError` otherwise. -/
def pyToNat : PyVal → Except PyErr ℕ
  | .int n => .ok n
  | _ => .error .typeError

/-- Python `old & ~mask` on non-negative ints: clears from `old` every bit
set in `mask`.  `old &&& mask` has a subset of `old`'s bits, so natural
subtraction clears exactly those bits. -/
def andNot (old mask : ℕ) : ℕ := old - (old &&& mask)

/-- Modelled from the spec: `_usgn` lives in the `_instrument` module,
which is not part of the sources.  Per spec §4.1 the raw value is
`round(value/scale)` (the handlers pass the already-scaled quotient) and
an unsigned field rejects values outside its `w`-bit range with
`OutOfRange` before any device write. -/
def usgn (x : ℚ) (w : ℕ) : Except PyErr ℕ :=
  let r := round x
  if 0 ≤ r ∧ r < 2 ^ w then .ok r.toNat
  else .error (.valueOutOfRange "unsigned value out of range")

/-- Modelled from the spec: `_sgn` lives in the `_instrument` module,
which is not part of the sources.  Per spec §4.1 signed fields round and
then use two's-complement of the declared width `w`, rejecting values
outside the signed range with `OutOfRange`. -/
def sgn (x : ℚ) (w : ℕ) : Except PyErr ℕ :=
  let r := round x
  if -(2 ^ (w - 1) : ℤ) ≤ r ∧ r < 2 ^ (w - 1) then .ok (r % (2 ^ w : ℤ)).toNat
  else .error (.valueOutOfRange "signed value out of range")

-- Register addresses (pymoku/_siggen.py lines 17-47).
def REG_SG_WAVEFORMS : ℕ := 96
def REG_SG_MODSOURCE : ℕ := 123
def REG_SG_PRECLIP : ℕ := 124
def REG_SG_FREQ1_L : ℕ := 97
def REG_SG_FREQ1_H : ℕ := 105
def REG_SG_PHASE1 : ℕ := 98
def REG_SG_AMP1 : ℕ := 99
def REG_SG_MODF1_L : ℕ := 100
def REG_SG_MODF1_H : ℕ := 101
def REG_SG_T01 : ℕ := 102
def REG_SG_T11 : ℕ := 103
def REG_SG_T21 : ℕ := 104
def REG_SG_RISERATE1_L : ℕ := 106
def REG_SG_FALLRATE1_L : ℕ := 107
def REG_SG_RFRATE1_H : ℕ := 108
def REG_SG_MODA1 : ℕ := 121
def REG_SG_FREQ2_L : ℕ := 109
def REG_SG_FREQ2_H : ℕ := 117
def REG_SG_PHASE2 : ℕ := 110
def REG_SG_AMP2 : ℕ := 111
def REG_SG_MODF2_L : ℕ := 112
def REG_SG_MODF2_H : ℕ := 113
def REG_SG_T02 : ℕ := 114
def REG_SG_T12 : ℕ := 115
def REG_SG_T22 : ℕ := 116
def REG_SG_RISERATE2_L : ℕ := 118
def REG_SG_FALLRATE2_L : ℕ := 119
def REG_SG_RFRATE2_H : ℕ := 120
def REG_SG_MODA2 : ℕ := 122

-- Waveform / modulation enumerations (lines 49-61).
def SG_WAVE_SINE : ℕ := 0
def SG_WAVE_SQUARE : ℕ := 1
def SG_WAVE_NOISE : ℕ := 2
def SG_WAVE_CLIPSINE : ℕ := 3
def SG_MOD_NONE : ℕ := 0
def SG_MOD_AMPL : ℕ := 1
def SG_MOD_FREQ : ℕ := 2
def SG_MOD_PHASE : ℕ := 4
def SG_MODSOURCE_INT : ℕ := 0
def SG_MODSOURCE_ADC : ℕ := 1
def SG_MODSOURCE_DAC : ℕ := 2

-- Scale factors (lines 63-67); all exactly representable, so `ℚ` is exact.
def SG_FREQSCALE : ℚ := 10 ^ 9 / 2 ^ 48
def SG_PHASESCALE : ℚ := 1 / (2 ^ 32 - 1)
def SG_RISESCALE : ℚ := 1 / 2 ^ 48
def SG_AMPSCALE : ℚ := 4 / 2 ^ 16
def SG_DEPTHSCALE : ℚ := 1 / 2 ^ 15

/-! The `_siggen_reg_hdl` table (lines 254-325): every field's encode and
decode lambda, transcribed with Python's parse. -/

-- `lambda s, old: (old & ~1) | int(s) if int(s) in [0, 1] else None`
def out1_enable_encode (s : Bool) (old : ℕ) : Option ℕ :=
  let i : ℕ := if s then 1 else 0
  if i = 0 ∨ i = 1 then some ((andNot old 1) ||| i) else none

-- `lambda rval: rval & 1`
def out1_enable_decode (rval : ℕ) : ℕ := rval &&& 1

-- `lambda s, old: (old & ~2) | int(s) << 1 if int(s) in [0, 1] else None`
def out2_enable_encode (s : Bool) (old : ℕ) : Option ℕ :=
  let i : ℕ := if s then 1 else 0
  if i = 0 ∨ i = 1 then some ((andNot old 2) ||| (i <<< 1)) else none

-- `lambda rval: rval & 2 >> 1` — Python parses this as `rval & (2 >> 1)`.
def out2_enable_decode (rval : ℕ) : ℕ := rval &&& (2 >>> 1)

-- `lambda s, old: (old & ~0x70) | (s << 4) if s in [...] else None`
def out1_waveform_encode (s : ℕ) (old : ℕ) : Option ℕ :=
  if s = SG_WAVE_SINE ∨ s = SG_WAVE_SQUARE ∨ s = SG_WAVE_NOISE ∨ s = SG_WAVE_CLIPSINE then
    some ((andNot old 0x70) ||| (s <<< 4))
  else none

-- `lambda rval: rval & 0x70 >> 4` — Python parses this as `rval & (0x70 >> 4)`.
def out1_waveform_decode (rval : ℕ) : ℕ := rval &&& (0x70 >>> 4)

-- `lambda s, old: (old & ~0x380) | (s << 7) if s in [...] else None`
def out2_waveform_encode (s : ℕ) (old : ℕ) : Option ℕ :=
  if s = SG_WAVE_SINE ∨ s = SG_WAVE_SQUARE ∨ s = SG_WAVE_NOISE ∨ s = SG_WAVE_CLIPSINE then
    some ((andNot old 0x380) ||| (s <<< 7))
  else none

-- `lambda rval: rval & 0x380 >> 7` — parses as `rval & (0x380 >> 7)`.
def out2_waveform_decode (rval : ℕ) : ℕ := rval &&& (0x380 >>> 7)

-- `lambda s, old: (old & ~0x00FF0000) | s << 16 if s in range(SG_MOD_NONE, SG_MOD_AMPL | SG_MOD_FREQ | SG_MOD_PHASE) else None`
def out1_modulation_encode (s : ℕ) (old : ℕ) : Option ℕ :=
  if SG_MOD_NONE ≤ s ∧ s < (SG_MOD_AMPL ||| SG_MOD_FREQ ||| SG_MOD_PHASE) then
    some ((andNot old 0x00FF0000) ||| (s <<< 16))
  else none

-- `lambda rval: rval & 0x00FF0000 >> 16` — parses as `rval & (0x00FF0000 >> 16)`.
def out1_modulation_decode (rval : ℕ) : ℕ := rval &&& (0x00FF0000 >>> 16)

-- `lambda s, old: (old & ~0xFF000000) | s << 24 if s in range(...) else None`
def out2_modulation_encode (s : ℕ) (old : ℕ) : Option ℕ :=
  if SG_MOD_NONE ≤ s ∧ s < (SG_MOD_AMPL ||| SG_MOD_FREQ ||| SG_MOD_PHASE) then
    some ((andNot old 0xFF000000) ||| (s <<< 24))
  else none

-- `lambda rval: rval & 0xFF000000 >> 24` — parses as `rval & (0xFF000000 >> 24)`.
def out2_modulation_decode (rval : ℕ) : ℕ := rval &&& (0xFF000000 >>> 24)

-- `lambda f, old: ((old[0] & 0xFFFF0000) | _usgn(f / _SG_FREQSCALE, 48) >> 32,
--                  _usgn(f / _SG_FREQSCALE, 48) & 0xFFFFFFFF)`
-- `old` is the `(high, low)` pair of current register words.
def out1_frequency_encode (f : ℚ) (old : ℕ × ℕ) : Except PyErr (ℕ × ℕ) := do
  let raw ← usgn (f / SG_FREQSCALE) 48
  pure ((old.1 &&& 0xFFFF0000) ||| (raw >>> 32), raw &&& 0xFFFFFFFF)

-- `lambda rval: _SG_FREQSCALE * (rval[0] << 32 | rval[1])`
def out1_frequency_decode (rval : ℕ × ℕ) : ℚ :=
  SG_FREQSCALE * (((rval.1 <<< 32) ||| rval.2 : ℕ) : ℚ)

def out2_frequency_encode (f : ℚ) (old : ℕ × ℕ) : Except PyErr (ℕ × ℕ) := do
  let raw ← usgn (f / SG_FREQSCALE) 48
  pure ((old.1 &&& 0xFFFF0000) ||| (raw >>> 32), raw &&& 0xFFFFFFFF)

def out2_frequency_decode (rval : ℕ × ℕ) : ℚ :=
  SG_FREQSCALE * (((rval.1 <<< 32) ||| rval.2 : ℕ) : ℚ)

-- `lambda o, old: (old & ~0x0000FFFF) | _sgn(o / _SG_AMPSCALE, 16)`
def out1_offset_encode (o : ℚ) (old : ℕ) : Except PyErr ℕ := do
  let r ← sgn (o / SG_AMPSCALE) 16
  pure ((andNot old 0x0000FFFF) ||| r)

-- `lambda rval: (rval & 0x0000FFFF) * _SG_AMPSCALE`
def out1_offset_decode (rval : ℕ) : ℚ := ((rval &&& 0x0000FFFF : ℕ) : ℚ) * SG_AMPSCALE

def out2_offset_encode (o : ℚ) (old : ℕ) : Except PyErr ℕ := do
  let r ← sgn (o / SG_AMPSCALE) 16
  pure ((andNot old 0x0000FFFF) ||| r)

def out2_offset_decode (rval : ℕ) : ℚ := ((rval &&& 0x0000FFFF : ℕ) : ℚ) * SG_AMPSCALE

-- `lambda p, old: _usgn(p / _SG_PHASESCALE, 32)` / `lambda rval: _SG_PHASESCALE * rval`
def out1_phase_encode (p : ℚ) (_old : ℕ) : Except PyErr ℕ := usgn (p / SG_PHASESCALE) 32

def out1_phase_decode (rval : ℕ) : ℚ := SG_PHASESCALE * (rval : ℚ)

def out2_phase_encode (p : ℚ) (_old : ℕ) : Except PyErr ℕ := usgn (p / SG_PHASESCALE) 32

def out2_phase_decode (rval : ℕ) : ℚ := SG_PHASESCALE * (rval : ℚ)

-- `lambda a, old: _usgn(a / _SG_AMPSCALE, 32)` / `lambda rval: _SG_AMPSCALE * rval`
def out1_amplitude_encode (a : ℚ) (_old : ℕ) : Except PyErr ℕ := usgn (a / SG_AMPSCALE) 32

def out1_amplitude_decode (rval : ℕ) : ℚ := SG_AMPSCALE * (rval : ℚ)

def out2_amplitude_encode (a : ℚ) (_old : ℕ) : Except PyErr ℕ := usgn (a / SG_AMPSCALE) 32

def out2_amplitude_decode (rval : ℕ) : ℚ := SG_AMPSCALE * (rval : ℚ)

-- `lambda f, old: ((old & 0xFFFF0000) | _usgn(f / _SG_FREQSCALE, 48) >> 32,
--                  _usgn(f / _SG_FREQSCALE, 48) & 0xFFFFFFFF)`
-- Unlike `out1_frequency`, the mask is applied to `old` itself — the
-- `(high, low)` register pair — not to `old[0]`; Python's `tuple & int`
-- raises `TypeError` before `_usgn` is evaluated.
def mod1_frequency_encode (f : ℚ) (old : ℕ × ℕ) : Except PyErr (ℕ × ℕ) := do
  let m ← pyAnd (.pair old.1 old.2) (.int 0xFFFF0000)
  let mi ← pyToNat m
  let raw ← usgn (f / SG_FREQSCALE) 48
  pure (mi ||| (raw >>> 32), raw &&& 0xFFFFFFFF)

def mod1_frequency_decode (rval : ℕ × ℕ) : ℚ :=
  SG_FREQSCALE * (((rval.1 <<< 32) ||| rval.2 : ℕ) : ℚ)

def mod2_frequency_encode (f : ℚ) (old : ℕ × ℕ) : Except PyErr (ℕ × ℕ) := do
  let m ← pyAnd (.pair old.1 old.2) (.int 0xFFFF0000)
  let mi ← pyToNat m
  let raw ← usgn (f / SG_FREQSCALE) 48
  pure (mi ||| (raw >>> 32), raw &&& 0xFFFFFFFF)

def mod2_frequency_decode (rval : ℕ × ℕ) : ℚ :=
  SG_FREQSCALE * (((rval.1 <<< 32) ||| rval.2 : ℕ) : ℚ)

-- `lambda o, old: (old & 0x0000FFFF) | _sgn(o, 16) << 16` / `lambda rval: rval >> 16`
def mod1_offset_encode (o : ℚ) (old : ℕ) : Except PyErr ℕ := do
  let r ← sgn o 16
  pure ((old &&& 0x0000FFFF) ||| (r <<< 16))

def mod1_offset_decode (rval : ℕ) : ℕ := rval >>> 16

def mod2_offset_encode (o : ℚ) (old : ℕ) : Except PyErr ℕ := do
  let r ← sgn o 16
  pure ((old &&& 0x0000FFFF) ||| (r <<< 16))

def mod2_offset_decode (rval : ℕ) : ℕ := rval >>> 16

-- `lambda t, old: _usgn(t / _SG_PHASESCALE, 32)` / `lambda rval: rval * _SG_PHASESCALE`
def out1_t0_encode (t : ℚ) (_old : ℕ) : Except PyErr ℕ := usgn (t / SG_PHASESCALE) 32

def out1_t0_decode (rval : ℕ) : ℚ := (rval : ℚ) * SG_PHASESCALE

def out1_t1_encode (t : ℚ) (_old : ℕ) : Except PyErr ℕ := usgn (t / SG_PHASESCALE) 32

def out1_t1_decode (rval : ℕ) : ℚ := (rval : ℚ) * SG_PHASESCALE

def out1_t2_encode (t : ℚ) (_old : ℕ) : Except PyErr ℕ := usgn (t / SG_PHASESCALE) 32

def out1_t2_decode (rval : ℕ) : ℚ := (rval : ℚ) * SG_PHASESCALE

def out2_t0_encode (t : ℚ) (_old : ℕ) : Except PyErr ℕ := usgn (t / SG_PHASESCALE) 32

def out2_t0_decode (rval : ℕ) : ℚ := (rval : ℚ) * SG_PHASESCALE

def out2_t1_encode (t : ℚ) (_old : ℕ) : Except PyErr ℕ := usgn (t / SG_PHASESCALE) 32

def out2_t1_decode (rval : ℕ) : ℚ := (rval : ℚ) * SG_PHASESCALE

def out2_t2_encode (t : ℚ) (_old : ℕ) : Except PyErr ℕ := usgn (t / SG_PHASESCALE) 32

def out2_t2_decode (rval : ℕ) : ℚ := (rval : ℚ) * SG_PHASESCALE

-- `lambda r, old: (old[0] & 0xFFFF0000 | _usgn(r / _SG_FREQSCALE, 48) >> 32,
--                  _usgn(r / _SG_FREQSCALE, 48) & 0xFFFFFFFF)`
-- parses as `(old[0] & 0xFFFF0000) | (raw >> 32)`.
def out1_riserate_encode (r : ℚ) (old : ℕ × ℕ) : Except PyErr (ℕ × ℕ) := do
  let raw ← usgn (r / SG_FREQSCALE) 48
  pure ((old.1 &&& 0xFFFF0000) ||| (raw >>> 32), raw &&& 0xFFFFFFFF)

-- `lambda rval: _SG_FREQSCALE / (rval[0] & 0x0000FFFF << 32 | rval[1])`
-- parses as `scale / ((rval[0] & (0x0000FFFF << 32)) | rval[1])`; a float
-- divided by int 0 raises `ZeroDivisionError`.
def out1_riserate_decode (rval : ℕ × ℕ) : Except PyErr ℚ :=
  let d : ℕ := (rval.1 &&& (0x0000FFFF <<< 32)) ||| rval.2
  if d = 0 then .error .zeroDivisionError else .ok (SG_FREQSCALE / (d : ℚ))

-- `lambda r, old: (old[0] & 0x0000FFFF | (_usgn(r / _SG_FREQSCALE, 48) >> 32) << 16,
--                  _usgn(r / _SG_FREQSCALE, 48) & 0xFFFFFFFF)`
def out1_fallrate_encode (r : ℚ) (old : ℕ × ℕ) : Except PyErr (ℕ × ℕ) := do
  let raw ← usgn (r / SG_FREQSCALE) 48
  pure ((old.1 &&& 0x0000FFFF) ||| ((raw >>> 32) <<< 16), raw &&& 0xFFFFFFFF)

-- `lambda rval: _SG_FREQSCALE / (rval[0] & 0xFFFF0000 << 16 | rval[1])`
def out1_fallrate_decode (rval : ℕ × ℕ) : Except PyErr ℚ :=
  let d : ℕ := (rval.1 &&& (0xFFFF0000 <<< 16)) ||| rval.2
  if d = 0 then .error .zeroDivisionError else .ok (SG_FREQSCALE / (d : ℚ))

-- `lambda r, old: (old[0] & 0xFFFF0000 | _usgn(r / _SG_RISESCALE, 48) >> 32,
--                  _usgn(r / _SG_RISESCALE, 48) & 0xFFFFFFFF)`
def out2_riserate_encode (r : ℚ) (old : ℕ × ℕ) : Except PyErr (ℕ × ℕ) := do
  let raw ← usgn (r / SG_RISESCALE) 48
  pure ((old.1 &&& 0xFFFF0000) ||| (raw >>> 32), raw &&& 0xFFFFFFFF)

-- `lambda rval: (rval[0] & 0x0000FFFF << 32 | rval[1]) * _SG_RISESCALE`
def out2_riserate_decode (rval : ℕ × ℕ) : ℚ :=
  (((rval.1 &&& (0x0000FFFF <<< 32)) ||| rval.2 : ℕ) : ℚ) * SG_RISESCALE

def out2_fallrate_encode (r : ℚ) (old : ℕ × ℕ) : Except PyErr (ℕ × ℕ) := do
  let raw ← usgn (r / SG_RISESCALE) 48
  pure ((old.1 &&& 0x0000FFFF) ||| ((raw >>> 32) <<< 16), raw &&& 0xFFFFFFFF)

-- `lambda rval: (rval[0] & 0xFFFF0000 << 16 | rval[1]) * _SG_RISESCALE`
def out2_fallrate_decode (rval : ℕ × ℕ) : ℚ :=
  (((rval.1 &&& (0xFFFF0000 <<< 16)) ||| rval.2 : ℕ) : ℚ) * SG_RISESCALE

-- `lambda a, old: _usgn(a / _SG_DEPTHSCALE, 15)` / `lambda rval: rval`
def mod1_amplitude_encode (a : ℚ) (_old : ℕ) : Except PyErr ℕ := usgn (a / SG_DEPTHSCALE) 15

def mod1_amplitude_decode (rval : ℕ) : ℕ := rval

def mod2_amplitude_encode (a : ℚ) (_old : ℕ) : Except PyErr ℕ := usgn (a / SG_DEPTHSCALE) 15

def mod2_amplitude_decode (rval : ℕ) : ℕ := rval

-- `lambda s, old: old & ~0x00000006 | s << 1 if s in [...] else None`
-- parses as `(old & ~6) | (s << 1)`.
def out1_modsource_encode (s : ℕ) (old : ℕ) : Option ℕ :=
  if s = SG_MODSOURCE_INT ∨ s = SG_MODSOURCE_ADC ∨ s = SG_MODSOURCE_DAC then
    some ((andNot old 0x00000006) ||| (s <<< 1))
  else none

-- `lambda rval: rval & 0x00000006 >> 1` — parses as `rval & (6 >> 1)`.
def out1_modsource_decode (rval : ℕ) : ℕ := rval &&& (0x00000006 >>> 1)

-- `lambda s, old: old & 0x00000018 | s << 3 if s in [...] else None`
-- parses as `(old & 0x18) | (s << 3)` — the complement is missing, so
-- every bit of `old` outside 0x18 is cleared.
def out2_modsource_encode (s : ℕ) (old : ℕ) : Option ℕ :=
  if s = SG_MODSOURCE_INT ∨ s = SG_MODSOURCE_ADC ∨ s = SG_MODSOURCE_DAC then
    some ((old &&& 0x00000018) ||| (s <<< 3))
  else none

-- `lambda rval: rval & 0x00000018 >> 3` — parses as `rval & (0x18 >> 3)`.
def out2_modsource_decode (rval : ℕ) : ℕ := rval &&& (0x00000018 >>> 3)

-- `lambda a, old: old & 0xFFFF0000 | _usgn(1 / a, 16)`; `1 / a` raises
-- `ZeroDivisionError` when `a` is zero.
def out1_amp_pc_encode (a : ℚ) (old : ℕ) : Except PyErr ℕ := do
  if a = 0 then .error .zeroDivisionError
  else do
    let r ← usgn (1 / a) 16
    pure ((old &&& 0xFFFF0000) ||| r)

-- `lambda rval: rval & 0x0000FFFF * _SG_AMPSCALE` — parses as
-- `rval & (0x0000FFFF * scale)`: `int & float` raises `TypeError`.
def out1_amp_pc_decode (rval : ℕ) : Except PyErr ℚ := do
  let m ← pyAnd (.int rval) (.float ((0x0000FFFF : ℚ) * SG_AMPSCALE))
  match m with
  | .int n => pure (n : ℚ)
  | .float q => pure q
  | .pair _ _ => .error .typeError

def out2_amp_pc_encode (a : ℚ) (old : ℕ) : Except PyErr ℕ := do
  if a = 0 then .error .zeroDivisionError
  else do
    let r ← usgn (1 / a) 16
    pure ((old &&& 0x0000FFFF) ||| (r <<< 16))

-- `lambda rval: rval >> 16 * _SG_AMPSCALE` — parses as
-- `rval >> (16 * scale)`: `int >> float` raises `TypeError`.
def out2_amp_pc_decode (rval : ℕ) : Except PyErr ℚ := do
  let m ← pyShr (.int rval) (.float ((16 : ℚ) * SG_AMPSCALE))
  match m with
  | .int n => pure (n : ℚ)
  | .float q => pure q
  | .pair _ _ => .error .typeError

/-! Instrument staging state and the signal generator's synthesis helpers
(`SignalGenerator`, lines 108-252).  Attribute assignment on the Python
object stages a value for the corresponding register field; `none` means
the attribute has not been staged.  Per spec §4.3/§7/§8 (and as
`examples/basic_siggen.py` relies on by wrapping a bare assignment in
`try/except ValueOutOfRangeException`), an assignment performs the
field's domain check immediately and raises `OutOfRange` at stage time,
before any device interaction; assignments made earlier in the same call
remain staged. -/

/-- Staged attribute store of a `SignalGenerator`: one optional slot per
settable register field of the handler table that the synthesis helpers
touch. -/
structure SigGenState where
  out1_enable : Option Bool := none
  out2_enable : Option Bool := none
  out1_waveform : Option ℕ := none
  out2_waveform : Option ℕ := none
  out1_modulation : Option ℕ := none
  out2_modulation : Option ℕ := none
  out1_frequency : Option ℚ := none
  out2_frequency : Option ℚ := none
  out1_offset : Option ℚ := none
  out2_offset : Option ℚ := none
  out1_amplitude : Option ℚ := none
  out2_amplitude : Option ℚ := none
  mod1_frequency : Option ℚ := none
  out1_t0 : Option ℚ := none
  out1_t1 : Option ℚ := none
  out1_t2 : Option ℚ := none
  out2_t0 : Option ℚ := none
  out2_t1 : Option ℚ := none
  out2_t2 : Option ℚ := none
  out1_riserate : Option ℚ := none
  out1_fallrate : Option ℚ := none
  out2_riserate : Option ℚ := none
  out2_fallrate : Option ℚ := none
  mod1_amplitude : Option ℚ := none
  out1_modsource : Option ℕ := none
  out2_modsource : Option ℕ := none
  out1_amp_pc : Option ℚ := none
  out2_amp_pc : Option ℚ := none
deriving DecidableEq, Repr

/-- The freshly constructed instrument: nothing staged. -/
def SigGenState.empty : SigGenState := {}

/-- Python `clip or 1` for an optional float `clip`: both `None` and the
float `0.0` are falsy, every other float yields itself. -/
def pyOrOne (clip : Option ℚ) : ℚ :=
  match clip with
  | none => 1
  | some c => if c = 0 then 1 else c

/-- The result of calling a Python method on the instrument: the object's
state as left behind by the call (mutations made before an exception
persist on the object), plus the exception raised, if any. -/
abbrev SynthResult := SigGenState × Option PyErr

/-- Sequence two staging actions: a raised exception propagates,
keeping the state mutated so far. -/
def andThen (r : SynthResult) (f : SigGenState → SynthResult) : SynthResult :=
  match r with
  | (st, none) => f st
  | (st, some e) => (st, some e)

/-! Per-field staging setters.  Modelled from the spec: the attribute
interception (`__setattr__`) lives in the `_instrument` module, which is
not part of the sources.  Spec §4.3: `set(field, value)` stages the value
after a domain check and may fail with `OutOfRange` immediately; §7:
domain violations are raised at stage time with no device effect.  Each
setter's domain check is the value-dependent part of the in-src handler
lambda: its `_usgn`/`_sgn` range check or its enumeration guard (a guard
returning Python `None` is surfaced as the spec's `OutOfRange`); the
register-merge part of the lambda needs the device word and runs at
commit time. -/

/-- Domain failure of an enumeration guard, surfaced per spec §4.1. -/
def domainErr : PyErr := .valueOutOfRange "value not in the field domain"

/-- Apply a stage-time domain check: on success the updated state is
returned, on failure the exception is raised and the state is kept. -/
def staged : Except PyErr ℕ → SigGenState → SigGenState → SynthResult
  | .ok _, _, upd => (upd, none)
  | .error e, st, _ => (st, some e)

def set_out1_waveform (s : ℕ) (st : SigGenState) : SynthResult :=
  if s = SG_WAVE_SINE ∨ s = SG_WAVE_SQUARE ∨ s = SG_WAVE_NOISE ∨ s = SG_WAVE_CLIPSINE then
    ({ st with out1_waveform := some s }, none)
  else (st, some domainErr)

def set_out2_waveform (s : ℕ) (st : SigGenState) : SynthResult :=
  if s = SG_WAVE_SINE ∨ s = SG_WAVE_SQUARE ∨ s = SG_WAVE_NOISE ∨ s = SG_WAVE_CLIPSINE then
    ({ st with out2_waveform := some s }, none)
  else (st, some domainErr)

def set_out1_enable (s : Bool) (st : SigGenState) : SynthResult :=
  let i : ℕ := if s then 1 else 0
  if i = 0 ∨ i = 1 then ({ st with out1_enable := some s }, none)
  else (st, some domainErr)

def set_out2_enable (s : Bool) (st : SigGenState) : SynthResult :=
  let i : ℕ := if s then 1 else 0
  if i = 0 ∨ i = 1 then ({ st with out2_enable := some s }, none)
  else (st, some domainErr)

def set_out1_amplitude (a : ℚ) (st : SigGenState) : SynthResult :=
  staged (usgn (a / SG_AMPSCALE) 32) st { st with out1_amplitude := some a }

def set_out2_amplitude (a : ℚ) (st : SigGenState) : SynthResult :=
  staged (usgn (a / SG_AMPSCALE) 32) st { st with out2_amplitude := some a }

def set_out1_frequency (f : ℚ) (st : SigGenState) : SynthResult :=
  staged (usgn (f / SG_FREQSCALE) 48) st { st with out1_frequency := some f }

def set_out2_frequency (f : ℚ) (st : SigGenState) : SynthResult :=
  staged (usgn (f / SG_FREQSCALE) 48) st { st with out2_frequency := some f }

def set_out1_offset (o : ℚ) (st : SigGenState) : SynthResult :=
  staged (sgn (o / SG_AMPSCALE) 16) st { st with out1_offset := some o }

def set_out2_offset (o : ℚ) (st : SigGenState) : SynthResult :=
  staged (sgn (o / SG_AMPSCALE) 16) st { st with out2_offset := some o }

def set_out1_t0 (t : ℚ) (st : SigGenState) : SynthResult :=
  staged (usgn (t / SG_PHASESCALE) 32) st { st with out1_t0 := some t }

def set_out1_t1 (t : ℚ) (st : SigGenState) : SynthResult :=
  staged (usgn (t / SG_PHASESCALE) 32) st { st with out1_t1 := some t }

def set_out1_t2 (t : ℚ) (st : SigGenState) : SynthResult :=
  staged (usgn (t / SG_PHASESCALE) 32) st { st with out1_t2 := some t }

def set_out2_t0 (t : ℚ) (st : SigGenState) : SynthResult :=
  staged (usgn (t / SG_PHASESCALE) 32) st { st with out2_t0 := some t }

def set_out2_t1 (t : ℚ) (st : SigGenState) : SynthResult :=
  staged (usgn (t / SG_PHASESCALE) 32) st { st with out2_t1 := some t }

def set_out2_t2 (t : ℚ) (st : SigGenState) : SynthResult :=
  staged (usgn (t / SG_PHASESCALE) 32) st { st with out2_t2 := some t }

def set_out1_riserate (r : ℚ) (st : SigGenState) : SynthResult :=
  staged (usgn (r / SG_FREQSCALE) 48) st { st with out1_riserate := some r }

def set_out1_fallrate (r : ℚ) (st : SigGenState) : SynthResult :=
  staged (usgn (r / SG_FREQSCALE) 48) st { st with out1_fallrate := some r }

def set_out2_riserate (r : ℚ) (st : SigGenState) : SynthResult :=
  staged (usgn (r / SG_RISESCALE) 48) st { st with out2_riserate := some r }

def set_out2_fallrate (r : ℚ) (st : SigGenState) : SynthResult :=
  staged (usgn (r / SG_RISESCALE) 48) st { st with out2_fallrate := some r }

def set_out1_modulation (s : ℕ) (st : SigGenState) : SynthResult :=
  if SG_MOD_NONE ≤ s ∧ s < (SG_MOD_AMPL ||| SG_MOD_FREQ ||| SG_MOD_PHASE) then
    ({ st with out1_modulation := some s }, none)
  else (st, some domainErr)

def set_out1_modsource (s : ℕ) (st : SigGenState) : SynthResult :=
  if s = SG_MODSOURCE_INT ∨ s = SG_MODSOURCE_ADC ∨ s = SG_MODSOURCE_DAC then
    ({ st with out1_modsource := some s }, none)
  else (st, some domainErr)

def set_mod1_frequency (f : ℚ) (st : SigGenState) : SynthResult :=
  staged (usgn (f / SG_FREQSCALE) 48) st { st with mod1_frequency := some f }

def set_mod1_amplitude (a : ℚ) (st : SigGenState) : SynthResult :=
  staged (usgn (a / SG_DEPTHSCALE) 15) st { st with mod1_amplitude := some a }

def set_out1_amp_pc (a : ℚ) (st : SigGenState) : SynthResult :=
  if a = 0 then (st, some .zeroDivisionError)
  else staged (usgn (1 / a) 16) st { st with out1_amp_pc := some a }

def set_out2_amp_pc (a : ℚ) (st : SigGenState) : SynthResult :=
  if a = 0 then (st, some .zeroDivisionError)
  else staged (usgn (1 / a) 16) st { st with out2_amp_pc := some a }

/-- `SignalGenerator.synth_sinewave` (lines 108-146), transcribed
assignment by assignment; the waveform choice tests `clip is None`, the
`amp_pc` staging uses Python truthiness via `clip or 1`, and every
assignment runs its stage-time domain check. -/
def synth_sinewave (ch : ℤ) (amplitude frequency : ℚ) (offset : ℚ) (clip : Option ℚ)
    (st : SigGenState) : SynthResult :=
  if ch = 1 then
    andThen (set_out1_waveform
        (match clip with | none => SG_WAVE_SINE | some _ => SG_WAVE_CLIPSINE) st) fun st =>
    andThen (set_out1_enable true st) fun st =>
    andThen (set_out1_amplitude amplitude st) fun st =>
    andThen (set_out1_frequency frequency st) fun st =>
    andThen (set_out1_offset offset st) fun st =>
    set_out1_amp_pc (pyOrOne clip) st
  else if ch = 2 then
    andThen (set_out2_waveform
        (match clip with | none => SG_WAVE_SINE | some _ => SG_WAVE_CLIPSINE) st) fun st =>
    andThen (set_out2_enable true st) fun st =>
    andThen (set_out2_amplitude amplitude st) fun st =>
    andThen (set_out2_frequency frequency st) fun st =>
    andThen (set_out2_offset offset st) fun st =>
    set_out2_amp_pc (pyOrOne clip) st
  else
    (st, some (.valueOutOfRange "Invalid Channel"))

/-- `SignalGenerator.synth_squarewave` (lines 148-202): the two cross-field
checks run first; the assignments then happen one at a time, each with its
stage-time domain check, and `frequency / risetime` (resp. `/ falltime`)
raises `ZeroDivisionError` when the divisor is zero — the division is
evaluated before the corresponding rate assignment.  Either failure leaves
the assignments made so far staged. -/
def synth_squarewave (ch : ℤ) (amplitude frequency offset duty risetime falltime : ℚ)
    (st : SigGenState) : SynthResult :=
  if duty < risetime then (st, some (.valueOutOfRange "Duty too small for given rise rate"))
  else if 1 < duty + falltime then (st, some (.valueOutOfRange "Duty and fall time too big"))
  else if ch = 1 then
    andThen (set_out1_waveform SG_WAVE_SQUARE st) fun st =>
    andThen (set_out1_enable true st) fun st =>
    andThen (set_out1_amplitude amplitude st) fun st =>
    andThen (set_out1_frequency frequency st) fun st =>
    andThen (set_out1_offset offset st) fun st =>
    andThen (set_out1_t0 risetime st) fun st =>
    andThen (set_out1_t1 duty st) fun st =>
    andThen (set_out1_t2 (duty + falltime) st) fun st =>
    if risetime = 0 then (st, some .zeroDivisionError)
    else
      andThen (set_out1_riserate (frequency / risetime) st) fun st =>
      if falltime = 0 then (st, some .zeroDivisionError)
      else set_out1_fallrate (frequency / falltime) st
  else if ch = 2 then
    andThen (set_out2_waveform SG_WAVE_SQUARE st) fun st =>
    andThen (set_out2_enable true st) fun st =>
    andThen (set_out2_amplitude amplitude st) fun st =>
    andThen (set_out2_frequency frequency st) fun st =>
    andThen (set_out2_offset offset st) fun st =>
    andThen (set_out2_t0 risetime st) fun st =>
    andThen (set_out2_t1 duty st) fun st =>
    andThen (set_out2_t2 (duty + falltime) st) fun st =>
    if risetime = 0 then (st, some .zeroDivisionError)
    else
      andThen (set_out2_riserate (frequency / risetime) st) fun st =>
      if falltime = 0 then (st, some .zeroDivisionError)
      else set_out2_fallrate (frequency / falltime) st
  else
    (st, some (.valueOutOfRange "Invalid Channel"))

/-- `SignalGenerator.synth_rampwave` (lines 204-227): a wrapper around the
square wave generator with `duty = symmetry`, `risetime = symmetry`,
`falltime = 1 - symmetry`. -/
def synth_rampwave (ch : ℤ) (amplitude frequency offset symmetry : ℚ)
    (st : SigGenState) : SynthResult :=
  synth_squarewave ch amplitude frequency offset symmetry symmetry (1 - symmetry) st

/-- `SignalGenerator.synth_modulate` (lines 229-252): only channel 1 is
handled; any other channel falls through the single `if` and the call
returns without staging anything and without raising.  The read of
`self.out1_amplitude` for the depth product returns the staged value if
one is staged; otherwise the last committed value, which
`set_defaults` (line 103) makes 0 — modelled from the spec (§3: attributes
not explicitly set retain their last committed value). -/
def synth_modulate (ch : ℤ) (type source : ℕ) (depth : ℚ) (frequency : ℚ)
    (st : SigGenState) : SynthResult :=
  if ch = 1 then
    andThen (set_out1_modulation type st) fun st =>
    andThen (set_out1_modsource source st) fun st =>
    andThen (set_mod1_frequency frequency st) fun st =>
    set_mod1_amplitude (depth * (st.out1_amplitude.getD 0)) st
  else
    (st, none)

/-! Commit: modelled from the spec.  The commit machinery lives in the
`_instrument` module, which is not part of the sources; spec §4.2/§4.3
describe it as: read the current word of every touched register, apply
each staged field's encode against the current (accumulated) raw words in
handler-table order, and write the merged results back.  A handler lambda
returning `None` means the value failed its domain check, which the spec
maps to `OutOfRange`. -/

/-- Register write: update one word of the register file. -/
def wr1 (regs : ℕ → ℕ) (addr v : ℕ) : ℕ → ℕ := fun a => if a = addr then v else regs a

/-- A handler lambda's `None` result, surfaced as the spec's `OutOfRange`. -/
def liftOpt (o : Option ℕ) : Except PyErr ℕ :=
  match o with
  | some v => .ok v
  | none => .error (.valueOutOfRange "value not in the field domain")

/-- Commit one staged single-word field whose encode returns `Option`. -/
def stepO {α : Type} (o : Option α) (addr : ℕ) (enc : α → ℕ → Option ℕ)
    (regs : ℕ → ℕ) : Except PyErr (ℕ → ℕ) :=
  match o with
  | none => .ok regs
  | some s => do
    let v ← liftOpt (enc s (regs addr))
    pure (wr1 regs addr v)

/-- Commit one staged single-word field whose encode can raise. -/
def stepE {α : Type} (o : Option α) (addr : ℕ) (enc : α → ℕ → Except PyErr ℕ)
    (regs : ℕ → ℕ) : Except PyErr (ℕ → ℕ) :=
  match o with
  | none => .ok regs
  | some s => do
    let v ← enc s (regs addr)
    pure (wr1 regs addr v)

/-- Commit one staged multi-word field: the encode receives the current
`(high, low)` word pair and returns the new pair. -/
def stepW {α : Type} (o : Option α) (hi lo : ℕ) (enc : α → ℕ × ℕ → Except PyErr (ℕ × ℕ))
    (regs : ℕ → ℕ) : Except PyErr (ℕ → ℕ) :=
  match o with
  | none => .ok regs
  | some s => do
    let v ← enc s (regs hi, regs lo)
    pure (wr1 (wr1 regs hi v.1) lo v.2)

/-- Modelled from the spec: `commit()` (§4.2/§4.3, implemented by the
missing `_instrument` module) applies every staged field's encode against
the current register words in the order of the `_siggen_reg_hdl` table,
read-modify-write, and returns the new register file; the first failing
encode aborts the commit. -/
def commit (st : SigGenState) (regs : ℕ → ℕ) : Except PyErr (ℕ → ℕ) := do
  let regs ← stepO st.out1_enable REG_SG_WAVEFORMS out1_enable_encode regs
  let regs ← stepO st.out2_enable REG_SG_WAVEFORMS out2_enable_encode regs
  let regs ← stepO st.out1_waveform REG_SG_WAVEFORMS out1_waveform_encode regs
  let regs ← stepO st.out2_waveform REG_SG_WAVEFORMS out2_waveform_encode regs
  let regs ← stepO st.out1_modulation REG_SG_WAVEFORMS out1_modulation_encode regs
  let regs ← stepO st.out2_modulation REG_SG_WAVEFORMS out2_modulation_encode regs
  let regs ← stepW st.out1_frequency REG_SG_FREQ1_H REG_SG_FREQ1_L out1_frequency_encode regs
  let regs ← stepW st.out2_frequency REG_SG_FREQ2_H REG_SG_FREQ2_L out2_frequency_encode regs
  let regs ← stepE st.out1_offset REG_SG_MODF1_H out1_offset_encode regs
  let regs ← stepE st.out2_offset REG_SG_MODF2_H out2_offset_encode regs
  let regs ← stepE st.out1_amplitude REG_SG_AMP1 out1_amplitude_encode regs
  let regs ← stepE st.out2_amplitude REG_SG_AMP2 out2_amplitude_encode regs
  let regs ← stepW st.mod1_frequency REG_SG_MODF1_H REG_SG_MODF1_L mod1_frequency_encode regs
  let regs ← stepE st.out1_t0 REG_SG_T01 out1_t0_encode regs
  let regs ← stepE st.out1_t1 REG_SG_T11 out1_t1_encode regs
  let regs ← stepE st.out1_t2 REG_SG_T21 out1_t2_encode regs
  let regs ← stepE st.out2_t0 REG_SG_T02 out2_t0_encode regs
  let regs ← stepE st.out2_t1 REG_SG_T12 out2_t1_encode regs
  let regs ← stepE st.out2_t2 REG_SG_T22 out2_t2_encode regs
  let regs ← stepW st.out1_riserate REG_SG_RFRATE1_H REG_SG_RISERATE1_L out1_riserate_encode regs
  let regs ← stepW st.out1_fallrate REG_SG_RFRATE1_H REG_SG_FALLRATE1_L out1_fallrate_encode regs
  let regs ← stepW st.out2_riserate REG_SG_RFRATE2_H REG_SG_RISERATE2_L out2_riserate_encode regs
  let regs ← stepW st.out2_fallrate REG_SG_RFRATE2_H REG_SG_FALLRATE2_L out2_fallrate_encode regs
  let regs ← stepE st.mod1_amplitude REG_SG_MODA1 mod1_amplitude_encode regs
  let regs ← stepO st.out1_modsource REG_SG_MODSOURCE out1_modsource_encode regs
  let regs ← stepO st.out2_modsource REG_SG_MODSOURCE out2_modsource_encode regs
  let regs ← stepE st.out1_amp_pc REG_SG_PRECLIP out1_amp_pc_encode regs
  let regs ← stepE st.out2_amp_pc REG_SG_PRECLIP out2_amp_pc_encode regs
  pure regs

/-- An all-zero register file, the baseline for the committed-state
scenarios. -/
def zeroRegs : ℕ → ℕ := fun _ => 0

/-! Bitwise helper lemmas for the multi-word merge proofs. -/

/-- Masking with `0xFFFFFFFF` keeps the low 32 bits. -/
theorem land_ffffffff (n : ℕ) : n &&& 0xFFFFFFFF = n % 2 ^ 32 := by
  have h : (0xFFFFFFFF : ℕ) = 2 ^ 32 - 1 := by norm_num
  rw [h, Nat.and_pow_two_sub_one_eq_mod]

/-- The constant `0xFFFF0000` has no bits below position 16. -/
theorem testBit_himask_low (i : ℕ) (h : i < 16) : Nat.testBit 0xFFFF0000 i = false := by
  interval_cases i <;> decide

/-- The constant `0xFFFF` has all bits below position 16. -/
theorem testBit_lowmask_low (i : ℕ) (h : i < 16) : Nat.testBit 0xFFFF i = true := by
  interval_cases i <;> decide

/-- The constant `0xFFFF` has no bits at position 16 or above. -/
theorem testBit_lowmask_high (i : ℕ) (h : 16 ≤ i) : Nat.testBit 0xFFFF i = false := by
  have h' : (0xFFFF : ℕ) = 2 ^ 16 - 1 := by norm_num
  rw [h', Nat.testBit_two_pow_sub_one]
  simp [Nat.not_lt.mpr h]

/-- A value below `2 ^ 16` has no bits at position 16 or above. -/
theorem testBit_small (v i : ℕ) (hv : v < 2 ^ 16) (h : 16 ≤ i) : Nat.testBit v i = false :=
  Nat.testBit_lt_two_pow (lt_of_lt_of_le hv (Nat.pow_le_pow_right (by norm_num) h))

/-- Merging a sub-`2 ^ 16` value into the high-masked part of a word
leaves the `0xFFFF0000` bits of the word unchanged. -/
theorem or_low_preserves_high (x v : ℕ) (hv : v < 2 ^ 16) :
    ((x &&& 0xFFFF0000) ||| v) &&& 0xFFFF0000 = x &&& 0xFFFF0000 := by
  apply Nat.eq_of_testBit_eq
  intro i
  simp only [Nat.testBit_and, Nat.testBit_or]
  by_cases hi : i < 16
  · rw [testBit_himask_low i hi]
    simp
  · rw [testBit_small v i hv (le_of_not_lt hi)]
    simp [Bool.and_assoc]

/-- Merging a sub-`2 ^ 16` value into the high-masked part of a word
makes the `0xFFFF` bits of the result exactly that value. -/
theorem or_high_low_bits (x v : ℕ) (hv : v < 2 ^ 16) :
    ((x &&& 0xFFFF0000) ||| v) &&& 0xFFFF = v := by
  apply Nat.eq_of_testBit_eq
  intro i
  simp only [Nat.testBit_and, Nat.testBit_or]
  by_cases hi : i < 16
  · rw [testBit_himask_low i hi, testBit_lowmask_low i hi]
    simp
  · rw [testBit_lowmask_high i (le_of_not_lt hi), testBit_small v i hv (le_of_not_lt hi)]
    simp

/-- Recombining a shifted high part with a sub-`2 ^ 32` low part is plain
positional arithmetic. -/
theorem shiftLeft32_lor_eq_add (hi lo : ℕ) (h : lo < 2 ^ 32) :
    ((hi <<< 32) ||| lo) = hi * 2 ^ 32 + lo := by
  rw [Nat.shiftLeft_eq, mul_comm hi (2 ^ 32), ← Nat.mul_add_lt_is_or h hi]

/-! Claim theorems. -/

/-- C1 (code_bug): the handler table's round-trip invariant fails: for the
`out1_waveform` field with the in-domain value `SG_WAVE_CLIPSINE` and a
zeroed register, encoding places the value at bits 4..6, but the decode
lambda `rval & 0x70 >> 4` parses as `rval & (0x70 >> 4)` and reads bits
0..2, returning `SG_WAVE_SINE` instead — an error of three enumeration
values, far beyond one quantization step. -/
theorem C1_out1_waveform_roundtrip_fails :
    out1_waveform_encode SG_WAVE_CLIPSINE 0 = some 0x30 ∧
    out1_waveform_decode 0x30 = SG_WAVE_SINE ∧
    SG_WAVE_SINE ≠ SG_WAVE_CLIPSINE := by
  refine ⟨?_, ?_, ?_⟩ <;> decide

/-- C2 (code_bug): writing `out2_modsource` is not bit-isolated: its encode
`old & 0x00000018 | s << 3` is missing the complement on the mask (compare
`out1_modsource`'s `old & ~0x00000006`), so it clears every bit of the
shared `REG_SG_MODSOURCE` register outside bits 3..4.  Writing
`SG_MODSOURCE_INT` over register value 2 (bit 1 set by `out1_modsource`)
clears bit 1, and `out1_modsource`'s decoded value changes. -/
theorem C2_out2_modsource_clears_out1_modsource :
    out2_modsource_encode SG_MODSOURCE_INT 2 = some 0 ∧
    Nat.testBit 2 1 ≠ Nat.testBit 0 1 ∧
    out1_modsource_decode 2 ≠ out1_modsource_decode 0 := by
  refine ⟨?_, ?_, ?_⟩ <;> decide

/-- C7 (confirmed): `synth_rampwave` stages exactly what
`synth_squarewave` stages with `duty = symmetry`, `risetime = symmetry`
and `falltime = 1 - symmetry`, for every channel, argument set and prior
state — including identical failure outcomes. -/
theorem C7_rampwave_refines_squarewave :
    ∀ (ch : ℤ) (amplitude frequency offset symmetry : ℚ) (st : SigGenState),
      synth_rampwave ch amplitude frequency offset symmetry st =
        synth_squarewave ch amplitude frequency offset symmetry symmetry (1 - symmetry) st :=
  fun _ _ _ _ _ _ => rfl

/-- C9 (confirmed): both modulation-frequency encodes apply `&` to the
`(high, low)` register pair itself instead of to its high word, so they
raise `TypeError` for every input; `synth_modulate` on channel 1 with
in-domain type, source and frequency stages `mod1_frequency` (whatever
the final depth staging does), and committing the state it leaves behind
fails with that `TypeError`. -/
theorem C9_mod_frequency_type_error :
    (∀ (f : ℚ) (old : ℕ × ℕ), mod1_frequency_encode f old = .error .typeError) ∧
    (∀ (f : ℚ) (old : ℕ × ℕ), mod2_frequency_encode f old = .error .typeError) ∧
    (∀ (type source : ℕ) (depth frequency : ℚ) (st : SigGenState),
      SG_MOD_NONE ≤ type → type < (SG_MOD_AMPL ||| SG_MOD_FREQ ||| SG_MOD_PHASE) →
      (source = SG_MODSOURCE_INT ∨ source = SG_MODSOURCE_ADC ∨ source = SG_MODSOURCE_DAC) →
      (∃ n, usgn (frequency / SG_FREQSCALE) 48 = .ok n) →
      ((synth_modulate 1 type source depth frequency st).1).mod1_frequency = some frequency) ∧
    commit ((synth_modulate 1 SG_MOD_AMPL SG_MODSOURCE_ADC (1 / 2) 0 SigGenState.empty).1) zeroRegs
      = .error .typeError := by
  have hf0 : usgn ((0 : ℚ) / SG_FREQSCALE) 48 = .ok 0 := by
    norm_num [usgn]
  have hd0 : usgn ((0 : ℚ) / SG_DEPTHSCALE) 15 = .ok 0 := by
    norm_num [usgn]
  have hf0n : usgn (0 : ℚ) 48 = .ok 0 := by
    norm_num [usgn]
  have hd0n : usgn (0 : ℚ) 15 = .ok 0 := by
    norm_num [usgn]
  have hpre : ∀ (a : ℚ) (s : SigGenState),
      ((set_mod1_amplitude a s).1).mod1_frequency = s.mod1_frequency := by
    intro a s
    rcases hh : usgn (a / SG_DEPTHSCALE) 15 with v | e <;>
      simp [set_mod1_amplitude, hh, staged]
  refine ⟨fun f old => rfl, fun f old => rfl, ?_, ?_⟩
  · intro type source depth frequency st ht1 ht2 hsource hfq
    obtain ⟨n, hn⟩ := hfq
    rcases hsource with h | h | h <;> subst h <;>
      simp [synth_modulate, andThen, set_out1_modulation, set_out1_modsource,
        set_mod1_frequency, staged, ht1, ht2, hn, hpre]
  · have hstate : (synth_modulate 1 SG_MOD_AMPL SG_MODSOURCE_ADC (1 / 2) 0 SigGenState.empty).1
        = { out1_modulation := some SG_MOD_AMPL, out1_modsource := some SG_MODSOURCE_ADC,
            mod1_frequency := some 0, mod1_amplitude := some 0 } := by
      have hcond1 : (SG_MOD_NONE ≤ SG_MOD_AMPL ∧
          SG_MOD_AMPL < (SG_MOD_AMPL ||| SG_MOD_FREQ ||| SG_MOD_PHASE)) = True :=
        eq_true (by decide)
      have hcond2 : (SG_MODSOURCE_ADC = SG_MODSOURCE_INT ∨ SG_MODSOURCE_ADC = SG_MODSOURCE_ADC ∨
          SG_MODSOURCE_ADC = SG_MODSOURCE_DAC) = True :=
        eq_true (by decide)
      norm_num [synth_modulate, andThen, set_out1_modulation, set_out1_modsource,
        set_mod1_frequency, set_mod1_amplitude, staged, SigGenState.empty, hf0, hd0,
        hf0n, hd0n, hcond1, hcond2]
    rw [hstate]
    rfl

/-- Witness for C9's staging conjunct: amplitude modulation from the
associated ADC at frequency 0 on a fresh instrument is in-domain, and
`mod1_frequency` is indeed staged. -/
theorem C9_mod_frequency_type_error_witness :
    SG_MOD_NONE ≤ SG_MOD_AMPL ∧
    SG_MOD_AMPL < (SG_MOD_AMPL ||| SG_MOD_FREQ ||| SG_MOD_PHASE) ∧
    (SG_MODSOURCE_ADC = SG_MODSOURCE_INT ∨ SG_MODSOURCE_ADC = SG_MODSOURCE_ADC ∨
      SG_MODSOURCE_ADC = SG_MODSOURCE_DAC) ∧
    (∃ n, usgn ((0 : ℚ) / SG_FREQSCALE) 48 = .ok n) ∧
    ((synth_modulate 1 SG_MOD_AMPL SG_MODSOURCE_ADC (1 / 2) 0 SigGenState.empty).1).mod1_frequency
      = some 0 :=
  ⟨by decide, by decide, by decide, ⟨0, by norm_num [usgn]⟩,
    C9_mod_frequency_type_error.2.2.1 SG_MOD_AMPL SG_MODSOURCE_ADC (1 / 2) 0 SigGenState.empty
      (by decide) (by decide) (by decide) ⟨0, by norm_num [usgn]⟩⟩

/-- C10 (confirmed): `synth_sinewave` with `clip = 0` behaves exactly as
with `clip = 1` — identical result on every channel, argument set and
prior state — because `clip or 1` treats the float 0 like `None`; and on
a run whose amplitude, frequency and offset pass their stage-time domain
checks, the clipped-sine waveform is staged together with `amp_pc = 1`
and no error is raised. -/
theorem C10_sinewave_clip_zero :
    (∀ (amplitude frequency offset : ℚ) (st : SigGenState),
      synth_sinewave 1 amplitude frequency offset (some 0) st
        = synth_sinewave 1 amplitude frequency offset (some 1) st ∧
      synth_sinewave 2 amplitude frequency offset (some 0) st
        = synth_sinewave 2 amplitude frequency offset (some 1) st) ∧
    (∀ (amplitude frequency offset : ℚ) (st : SigGenState),
      (∃ n, usgn (amplitude / SG_AMPSCALE) 32 = .ok n) →
      (∃ n, usgn (frequency / SG_FREQSCALE) 48 = .ok n) →
      (∃ n, sgn (offset / SG_AMPSCALE) 16 = .ok n) →
      (((synth_sinewave 1 amplitude frequency offset (some 0) st).1).out1_waveform
          = some SG_WAVE_CLIPSINE ∧
        ((synth_sinewave 1 amplitude frequency offset (some 0) st).1).out1_amp_pc = some 1 ∧
        (synth_sinewave 1 amplitude frequency offset (some 0) st).2 = none) ∧
      (((synth_sinewave 2 amplitude frequency offset (some 0) st).1).out2_waveform
          = some SG_WAVE_CLIPSINE ∧
        ((synth_sinewave 2 amplitude frequency offset (some 0) st).1).out2_amp_pc = some 1 ∧
        (synth_sinewave 2 amplitude frequency offset (some 0) st).2 = none)) := by
  have hpc1 : usgn ((1 : ℚ) / 1) 16 = .ok 1 := by
    have h : round ((1 : ℚ) / 1) = 1 := by
      norm_num
    simp only [usgn, h]
    decide
  have hsetP1 : ∀ s : SigGenState,
      set_out1_amp_pc 1 s = ({ s with out1_amp_pc := some 1 }, none) := by
    intro s
    simp only [set_out1_amp_pc]
    rw [if_neg one_ne_zero, hpc1]
    rfl
  have hsetP2 : ∀ s : SigGenState,
      set_out2_amp_pc 1 s = ({ s with out2_amp_pc := some 1 }, none) := by
    intro s
    simp only [set_out2_amp_pc]
    rw [if_neg one_ne_zero, hpc1]
    rfl
  constructor
  · intro amplitude frequency offset st
    constructor <;> simp [synth_sinewave, pyOrOne]
  · intro amplitude frequency offset st hA hF hO
    obtain ⟨na, hna⟩ := hA
    obtain ⟨nf, hnf⟩ := hF
    obtain ⟨no, hno⟩ := hO
    refine ⟨⟨?_, ?_, ?_⟩, ⟨?_, ?_, ?_⟩⟩ <;>
      simp [synth_sinewave, pyOrOne, andThen, set_out1_waveform, set_out1_enable,
        set_out1_amplitude, set_out1_frequency, set_out1_offset, set_out2_waveform,
        set_out2_enable, set_out2_amplitude, set_out2_frequency, set_out2_offset,
        staged, hna, hnf, hno, hsetP1, hsetP2]

/-- Witness for C10's conditional conjunct at amplitude 0, frequency 0,
offset 0 on a fresh instrument (all checks pass). -/
theorem C10_sinewave_clip_zero_witness :
    (∃ n, usgn ((0 : ℚ) / SG_AMPSCALE) 32 = .ok n) ∧
    (∃ n, usgn ((0 : ℚ) / SG_FREQSCALE) 48 = .ok n) ∧
    (∃ n, sgn ((0 : ℚ) / SG_AMPSCALE) 16 = .ok n) ∧
    ((((synth_sinewave 1 0 0 0 (some 0) SigGenState.empty).1).out1_waveform
        = some SG_WAVE_CLIPSINE ∧
      ((synth_sinewave 1 0 0 0 (some 0) SigGenState.empty).1).out1_amp_pc = some 1 ∧
      (synth_sinewave 1 0 0 0 (some 0) SigGenState.empty).2 = none) ∧
      (((synth_sinewave 2 0 0 0 (some 0) SigGenState.empty).1).out2_waveform
        = some SG_WAVE_CLIPSINE ∧
      ((synth_sinewave 2 0 0 0 (some 0) SigGenState.empty).1).out2_amp_pc = some 1 ∧
      (synth_sinewave 2 0 0 0 (some 0) SigGenState.empty).2 = none)) :=
  ⟨⟨0, by norm_num [usgn]⟩, ⟨0, by norm_num [usgn]⟩, ⟨0, by norm_num [sgn]⟩,
    C10_sinewave_clip_zero.2 0 0 0 SigGenState.empty
      ⟨0, by norm_num [usgn]⟩ ⟨0, by norm_num [usgn]⟩ ⟨0, by norm_num [sgn]⟩⟩

/-- C4 (confirmed): `synth_squarewave` rejects any call whose rise
fraction exceeds its duty fraction, or whose duty plus fall fraction
exceeds 1, with a `ValueOutOfRangeException`, and in that case the staged
attribute state is returned exactly as it was. -/
theorem C4_squarewave_validation (ch : ℤ)
    (amplitude frequency offset duty risetime falltime : ℚ) (st : SigGenState)
    (h : duty < risetime ∨ 1 < duty + falltime) :
    ∃ msg, synth_squarewave ch amplitude frequency offset duty risetime falltime st
      = (st, some (.valueOutOfRange msg)) := by
  rcases h with h | h
  · exact ⟨"Duty too small for given rise rate", by simp [synth_squarewave, h]⟩
  · by_cases h2 : duty < risetime
    · exact ⟨"Duty too small for given rise rate", by simp [synth_squarewave, h2]⟩
    · exact ⟨"Duty and fall time too big", by simp [synth_squarewave, h2, h]⟩

/-- Witness for C4 at the spec's two failing examples: duty 1/5 with
risetime 3/10, and duty 4/5 with falltime 3/10. -/
theorem C4_squarewave_validation_witness :
    ((1 : ℚ) / 5 < 3 / 10 ∨ 1 < (1 : ℚ) / 5 + 0) ∧
    (∃ msg, synth_squarewave 1 1 1 0 (1 / 5) (3 / 10) 0 SigGenState.empty
      = (SigGenState.empty, some (.valueOutOfRange msg))) ∧
    ((4 : ℚ) / 5 < 0 ∨ 1 < (4 : ℚ) / 5 + 3 / 10) ∧
    (∃ msg, synth_squarewave 1 1 1 0 (4 / 5) 0 (3 / 10) SigGenState.empty
      = (SigGenState.empty, some (.valueOutOfRange msg))) :=
  ⟨by norm_num,
   C4_squarewave_validation 1 1 1 0 (1 / 5) (3 / 10) 0 SigGenState.empty (by norm_num),
   by norm_num,
   C4_squarewave_validation 1 1 1 0 (4 / 5) 0 (3 / 10) SigGenState.empty (by norm_num)⟩

/-- C6 (counterexample): not every synthesis helper validates its channel.
`synth_modulate` with channel 3 raises nothing at all (its body is a lone
`if ch == 1` with no else clause), and `synth_squarewave` with channel 3
but a failing duty/rise check raises the duty error, not the
invalid-channel error. -/
theorem C6_modulate_no_channel_check :
    synth_modulate 3 SG_MOD_AMPL SG_MODSOURCE_INT (1 / 2) 0 SigGenState.empty
      = (SigGenState.empty, none) ∧
    synth_squarewave 3 1 1 0 (1 / 5) (3 / 10) 0 SigGenState.empty
      = (SigGenState.empty, some (.valueOutOfRange "Duty too small for given rise rate")) := by
  refine ⟨rfl, ?_⟩
  norm_num [synth_squarewave]

/-- C6 amended (theorem): for any channel outside {1, 2},
`synth_sinewave` and `synth_rampwave` always fail with the
invalid-channel error and stage nothing; `synth_squarewave` does so
whenever its duty/rise/fall validation passes (and stages nothing either
way); `synth_modulate` stages nothing but returns without error. -/
theorem C6_channel_validation_amended (ch : ℤ) (h1 : ch ≠ 1) (h2 : ch ≠ 2) :
    ∀ (amplitude frequency offset symmetry duty risetime falltime depth mfreq : ℚ)
      (clip : Option ℚ) (type source : ℕ) (st : SigGenState),
      synth_sinewave ch amplitude frequency offset clip st
        = (st, some (.valueOutOfRange "Invalid Channel")) ∧
      synth_rampwave ch amplitude frequency offset symmetry st
        = (st, some (.valueOutOfRange "Invalid Channel")) ∧
      (¬ duty < risetime → ¬ 1 < duty + falltime →
        synth_squarewave ch amplitude frequency offset duty risetime falltime st
          = (st, some (.valueOutOfRange "Invalid Channel"))) ∧
      synth_modulate ch type source depth mfreq st = (st, none) := by
  intro amplitude frequency offset symmetry duty risetime falltime depth mfreq clip type source st
  have hsym : symmetry + (1 - symmetry) = 1 := by ring
  refine ⟨?_, ?_, ?_, ?_⟩
  · simp [synth_sinewave, h1, h2]
  · simp [synth_rampwave, synth_squarewave, h1, h2, hsym]
  · intro hd hf
    simp [synth_squarewave, h1, h2, hd, hf]
  · simp [synth_modulate, h1]

/-- Witness for C6's amended theorem at channel 3. -/
theorem C6_channel_validation_amended_witness :
    (3 : ℤ) ≠ 1 ∧ (3 : ℤ) ≠ 2 ∧
    (synth_sinewave 3 1 1 0 none SigGenState.empty
        = (SigGenState.empty, some (.valueOutOfRange "Invalid Channel")) ∧
      synth_rampwave 3 1 1 0 (1 / 2) SigGenState.empty
        = (SigGenState.empty, some (.valueOutOfRange "Invalid Channel")) ∧
      (¬ (1 : ℚ) / 2 < 0 → ¬ (1 : ℚ) < 1 / 2 + 0 →
        synth_squarewave 3 1 1 0 (1 / 2) 0 0 SigGenState.empty
          = (SigGenState.empty, some (.valueOutOfRange "Invalid Channel"))) ∧
      synth_modulate 3 SG_MOD_AMPL SG_MODSOURCE_INT (1 / 2) 0 SigGenState.empty
        = (SigGenState.empty, none)) :=
  ⟨by decide, by decide,
   C6_channel_validation_amended 3 (by decide) (by decide) 1 1 0 (1 / 2) (1 / 2) 0 0 (1 / 2) 0
     none SG_MOD_AMPL SG_MODSOURCE_INT SigGenState.empty⟩

/-- C8 (counterexample): the claim's universal form fails because every
assignment performs a stage-time domain check first: with amplitude -1
(an argument set passing the duty/rise/fall checks, with the default zero
rise and fall fractions) the call raises OutOfRange at the amplitude
assignment — after waveform and enable are staged but before the
division is ever reached — not a division-by-zero error. -/
theorem C8_division_claim_counterexample :
    ¬ (1 : ℚ) / 2 < 0 ∧ ¬ (1 : ℚ) < 1 / 2 + 0 ∧
    synth_squarewave 1 (-1) 1 0 (1 / 2) 0 0 SigGenState.empty
      = ({ SigGenState.empty with
            out1_waveform := some SG_WAVE_SQUARE, out1_enable := some true },
          some (.valueOutOfRange "unsigned value out of range")) ∧
    some (PyErr.valueOutOfRange "unsigned value out of range") ≠ some PyErr.zeroDivisionError := by
  have hneg : usgn ((-1 : ℚ) / SG_AMPSCALE) 32
      = .error (.valueOutOfRange "unsigned value out of range") := by
    have h : round ((-1 : ℚ) / SG_AMPSCALE) = -16384 := by
      rw [round_eq]
      norm_num [SG_AMPSCALE]
    simp only [usgn, h]
    decide
  refine ⟨by norm_num, by norm_num, ?_, by decide⟩
  norm_num [synth_squarewave, andThen, set_out1_waveform, set_out1_enable,
    set_out1_amplitude, staged, hneg, SigGenState.empty]

/-- C8 amended (theorem): with a valid channel, arguments passing the
duty/rise/fall checks, and every staged value passing its stage-time
domain check (amplitude, frequency and offset in range; risetime, duty
and duty+falltime in the phase range; and, when risetime is nonzero, the
rise rate in the 48-bit range), a zero rise or fall fraction (the
documented defaults) makes `synth_squarewave` raise `ZeroDivisionError`
at the unguarded `frequency / risetime` (resp. `falltime`) division, and
only after the waveform, enable, amplitude, frequency, offset, t0, t1
and t2 assignments have been staged; the fall rate is never staged, so
the state is left partially staged. -/
theorem C8_squarewave_division_by_zero (ch : ℤ)
    (amplitude frequency offset duty risetime falltime : ℚ) (st : SigGenState)
    (hch : ch = 1 ∨ ch = 2) (h1 : ¬ duty < risetime) (h2 : ¬ 1 < duty + falltime)
    (h0 : risetime = 0 ∨ falltime = 0)
    (hA : ∃ n, usgn (amplitude / SG_AMPSCALE) 32 = .ok n)
    (hF : ∃ n, usgn (frequency / SG_FREQSCALE) 48 = .ok n)
    (hO : ∃ n, sgn (offset / SG_AMPSCALE) 16 = .ok n)
    (hT0 : ∃ n, usgn (risetime / SG_PHASESCALE) 32 = .ok n)
    (hT1 : ∃ n, usgn (duty / SG_PHASESCALE) 32 = .ok n)
    (hT2 : ∃ n, usgn ((duty + falltime) / SG_PHASESCALE) 32 = .ok n)
    (hR : risetime ≠ 0 → ∃ n, usgn ((frequency / risetime) / SG_FREQSCALE) 48 = .ok n)
    (hR2 : risetime ≠ 0 → ∃ n, usgn ((frequency / risetime) / SG_RISESCALE) 48 = .ok n) :
    (synth_squarewave ch amplitude frequency offset duty risetime falltime st).2
      = some .zeroDivisionError ∧
    (ch = 1 →
      ((synth_squarewave ch amplitude frequency offset duty risetime falltime st).1).out1_waveform
          = some SG_WAVE_SQUARE ∧
      ((synth_squarewave ch amplitude frequency offset duty risetime falltime st).1).out1_enable
          = some true ∧
      ((synth_squarewave ch amplitude frequency offset duty risetime falltime st).1).out1_amplitude
          = some amplitude ∧
      ((synth_squarewave ch amplitude frequency offset duty risetime falltime st).1).out1_frequency
          = some frequency ∧
      ((synth_squarewave ch amplitude frequency offset duty risetime falltime st).1).out1_offset
          = some offset ∧
      ((synth_squarewave ch amplitude frequency offset duty risetime falltime st).1).out1_t0
          = some risetime ∧
      ((synth_squarewave ch amplitude frequency offset duty risetime falltime st).1).out1_t1
          = some duty ∧
      ((synth_squarewave ch amplitude frequency offset duty risetime falltime st).1).out1_t2
          = some (duty + falltime) ∧
      ((synth_squarewave ch amplitude frequency offset duty risetime falltime st).1).out1_fallrate
          = st.out1_fallrate) ∧
    (ch = 2 →
      ((synth_squarewave ch amplitude frequency offset duty risetime falltime st).1).out2_waveform
          = some SG_WAVE_SQUARE ∧
      ((synth_squarewave ch amplitude frequency offset duty risetime falltime st).1).out2_enable
          = some true ∧
      ((synth_squarewave ch amplitude frequency offset duty risetime falltime st).1).out2_amplitude
          = some amplitude ∧
      ((synth_squarewave ch amplitude frequency offset duty risetime falltime st).1).out2_frequency
          = some frequency ∧
      ((synth_squarewave ch amplitude frequency offset duty risetime falltime st).1).out2_offset
          = some offset ∧
      ((synth_squarewave ch amplitude frequency offset duty risetime falltime st).1).out2_t0
          = some risetime ∧
      ((synth_squarewave ch amplitude frequency offset duty risetime falltime st).1).out2_t1
          = some duty ∧
      ((synth_squarewave ch amplitude frequency offset duty risetime falltime st).1).out2_t2
          = some (duty + falltime) ∧
      ((synth_squarewave ch amplitude frequency offset duty risetime falltime st).1).out2_fallrate
          = st.out2_fallrate) := by
  obtain ⟨na, hna⟩ := hA
  obtain ⟨nf, hnf⟩ := hF
  obtain ⟨no, hno⟩ := hO
  obtain ⟨n0, hn0⟩ := hT0
  obtain ⟨n1, hn1⟩ := hT1
  obtain ⟨n2, hn2⟩ := hT2
  by_cases hr : risetime = 0
  · subst hr
    simp only [zero_div] at hn0
    rcases hch with hc | hc <;> subst hc <;>
      simp [synth_squarewave, andThen, set_out1_waveform, set_out1_enable,
        set_out1_amplitude, set_out1_frequency, set_out1_offset,
        set_out1_t0, set_out1_t1, set_out1_t2,
        set_out2_waveform, set_out2_enable, set_out2_amplitude, set_out2_frequency,
        set_out2_offset, set_out2_t0, set_out2_t1, set_out2_t2,
        staged, h1, h2, hna, hnf, hno, hn0, hn1, hn2]
  · obtain ⟨nr, hnr⟩ := hR hr
    obtain ⟨nr2, hnr2⟩ := hR2 hr
    have hf : falltime = 0 := by tauto
    subst hf
    rw [add_zero] at h2 hn2
    rcases hch with hc | hc <;> subst hc <;>
      simp [synth_squarewave, andThen, set_out1_waveform, set_out1_enable,
        set_out1_amplitude, set_out1_frequency, set_out1_offset,
        set_out1_t0, set_out1_t1, set_out1_t2, set_out1_riserate,
        set_out2_waveform, set_out2_enable, set_out2_amplitude, set_out2_frequency,
        set_out2_offset, set_out2_t0, set_out2_t1, set_out2_t2, set_out2_riserate,
        staged, h1, h2, hr, hna, hnf, hno, hn0, hn1, hn2, hnr, hnr2]

/-- Witness for C8's amended theorem: channel 1, amplitude 1, frequency 1,
duty 1/2, both rise and fall fractions at their documented default of
zero; every stage-time domain check passes. -/
theorem C8_squarewave_division_by_zero_witness :
    ((1 : ℤ) = 1 ∨ (1 : ℤ) = 2) ∧ ¬ (1 : ℚ) / 2 < 0 ∧ ¬ (1 : ℚ) < 1 / 2 + 0 ∧
      ((0 : ℚ) = 0 ∨ (0 : ℚ) = 0) ∧
      (∃ n, usgn ((1 : ℚ) / SG_AMPSCALE) 32 = .ok n) ∧
      (∃ n, usgn ((1 : ℚ) / SG_FREQSCALE) 48 = .ok n) ∧
      (∃ n, sgn ((0 : ℚ) / SG_AMPSCALE) 16 = .ok n) ∧
      (∃ n, usgn ((0 : ℚ) / SG_PHASESCALE) 32 = .ok n) ∧
      (∃ n, usgn ((1 / 2 : ℚ) / SG_PHASESCALE) 32 = .ok n) ∧
      (∃ n, usgn (((1 / 2 : ℚ) + 0) / SG_PHASESCALE) 32 = .ok n) ∧
    ((synth_squarewave 1 1 1 0 (1 / 2) 0 0 SigGenState.empty).2 = some .zeroDivisionError ∧
      ((synth_squarewave 1 1 1 0 (1 / 2) 0 0 SigGenState.empty).1).out1_waveform
        = some SG_WAVE_SQUARE ∧
      ((synth_squarewave 1 1 1 0 (1 / 2) 0 0 SigGenState.empty).1).out1_t2 = some (1 / 2 + 0) ∧
      ((synth_squarewave 1 1 1 0 (1 / 2) 0 0 SigGenState.empty).1).out1_fallrate = none) := by
  have hA : usgn ((1 : ℚ) / SG_AMPSCALE) 32 = .ok 16384 := by
    have h : round ((1 : ℚ) / SG_AMPSCALE) = 16384 := by
      rw [round_eq]
      norm_num [SG_AMPSCALE]
    simp only [usgn, h]
    decide
  have hF : usgn ((1 : ℚ) / SG_FREQSCALE) 48 = .ok 281475 := by
    have h : round ((1 : ℚ) / SG_FREQSCALE) = 281475 := by
      rw [round_eq]
      norm_num [SG_FREQSCALE]
    simp only [usgn, h]
    decide
  have hO : sgn ((0 : ℚ) / SG_AMPSCALE) 16 = .ok 0 := by
    norm_num [sgn]
  have hT0 : usgn ((0 : ℚ) / SG_PHASESCALE) 32 = .ok 0 := by
    norm_num [usgn]
  have hT1 : usgn ((1 / 2 : ℚ) / SG_PHASESCALE) 32 = .ok 2147483648 := by
    have h : round ((1 / 2 : ℚ) / SG_PHASESCALE) = 2147483648 := by
      rw [round_eq]
      norm_num [SG_PHASESCALE]
    simp only [usgn, h]
    decide
  have hT2 : usgn (((1 / 2 : ℚ) + 0) / SG_PHASESCALE) 32 = .ok 2147483648 := by
    rw [add_zero]
    exact hT1
  have h := C8_squarewave_division_by_zero 1 1 1 0 (1 / 2) 0 0 SigGenState.empty
    (Or.inl rfl) (by norm_num) (by norm_num) (Or.inl rfl)
    ⟨16384, hA⟩ ⟨281475, hF⟩ ⟨0, hO⟩ ⟨0, hT0⟩ ⟨2147483648, hT1⟩ ⟨2147483648, hT2⟩
    (fun hc => absurd rfl hc) (fun hc => absurd rfl hc)
  refine ⟨Or.inl rfl, by norm_num, by norm_num, Or.inl rfl,
    ⟨16384, hA⟩, ⟨281475, hF⟩, ⟨0, hO⟩, ⟨0, hT0⟩, ⟨2147483648, hT1⟩, ⟨2147483648, hT2⟩,
    h.1, (h.2.1 rfl).1, ?_, ?_⟩
  · exact (h.2.1 rfl).2.2.2.2.2.2.2.1
  · exact (h.2.1 rfl).2.2.2.2.2.2.2.2


/-- With an in-range raw value, the frequency encode reduces to the merged
word pair. -/
theorem frequency_encode_ok (f : ℚ) (old : ℕ × ℕ)
    (h0 : 0 ≤ round (f / SG_FREQSCALE)) (h48 : round (f / SG_FREQSCALE) < 2 ^ 48) :
    out1_frequency_encode f old =
      .ok ((old.1 &&& 0xFFFF0000) ||| ((round (f / SG_FREQSCALE)).toNat >>> 32),
        (round (f / SG_FREQSCALE)).toNat &&& 0xFFFFFFFF) := by
  have h48' : round (f / SG_FREQSCALE) < 281474976710656 := by
    have h : (281474976710656 : ℤ) = 2 ^ 48 := by norm_num
    rw [h]
    exact h48
  simp [out1_frequency_encode, usgn, h0, h48, h48', Except.bind, Except.pure, pure, bind]

/-- Shared body of C5's amended statement for one frequency field. -/
theorem freq_pair_spec (f : ℚ) (old : ℕ × ℕ)
    (h0 : 0 ≤ round (f / SG_FREQSCALE)) (h48 : round (f / SG_FREQSCALE) < 2 ^ 48) :
    ∃ hi lo, out1_frequency_encode f old = .ok (hi, lo) ∧
      hi &&& 0xFFFF0000 = old.1 &&& 0xFFFF0000 ∧
      hi &&& 0xFFFF = (round (f / SG_FREQSCALE)).toNat / 2 ^ 32 ∧
      lo = (round (f / SG_FREQSCALE)).toNat % 2 ^ 32 ∧
      (old.1 &&& 0xFFFF0000 = 0 → |out1_frequency_decode (hi, lo) - f| ≤ SG_FREQSCALE) := by
  set r : ℕ := (round (f / SG_FREQSCALE)).toNat with hrdef
  have hrlt : r < 2 ^ 48 := by omega
  have hv : r >>> 32 < 2 ^ 16 := by
    rw [Nat.shiftRight_eq_div_pow]
    omega
  refine ⟨_, _, frequency_encode_ok f old h0 h48, ?_, ?_, ?_, ?_⟩
  · exact or_low_preserves_high old.1 (r >>> 32) hv
  · rw [or_high_low_bits old.1 (r >>> 32) hv, Nat.shiftRight_eq_div_pow]
  · exact land_ffffffff r
  · intro hz
    simp only [out1_frequency_decode]
    rw [hz, Nat.zero_or, land_ffffffff r,
      shiftLeft32_lor_eq_add _ _ (Nat.mod_lt _ (by norm_num)), Nat.shiftRight_eq_div_pow]
    have hsum : r / 2 ^ 32 * 2 ^ 32 + r % 2 ^ 32 = r := by omega
    rw [hsum]
    have hcast : ((r : ℕ) : ℚ) = ((round (f / SG_FREQSCALE) : ℤ) : ℚ) := by
      rw [hrdef]
      exact_mod_cast congrArg (fun z : ℤ => (z : ℚ)) (Int.toNat_of_nonneg h0)
    rw [hcast]
    have hs : (0 : ℚ) < SG_FREQSCALE := by norm_num [SG_FREQSCALE]
    have hfx : SG_FREQSCALE * (f / SG_FREQSCALE) = f :=
      mul_div_cancel₀ f (ne_of_gt hs)
    have habs : |((round (f / SG_FREQSCALE) : ℤ) : ℚ) - f / SG_FREQSCALE| ≤ 1 / 2 := by
      rw [abs_sub_comm]
      exact abs_sub_round (f / SG_FREQSCALE)
    calc |SG_FREQSCALE * ((round (f / SG_FREQSCALE) : ℤ) : ℚ) - f|
        = |SG_FREQSCALE * (((round (f / SG_FREQSCALE) : ℤ) : ℚ) - f / SG_FREQSCALE)| := by
          rw [mul_sub, hfx]
      _ = SG_FREQSCALE * |((round (f / SG_FREQSCALE) : ℤ) : ℚ) - f / SG_FREQSCALE| := by
          rw [abs_mul, abs_of_pos hs]
      _ ≤ SG_FREQSCALE * (1 / 2) := mul_le_mul_of_nonneg_left habs (le_of_lt hs)
      _ ≤ SG_FREQSCALE := by norm_num [SG_FREQSCALE]

/-- C5 (counterexample): the multi-word claim fails as stated.  The
`out1_fallrate` encode deliberately places raw bits 32..47 in the *upper*
16 bits of the shared high word (it shares that word with
`out1_riserate`); the `out1_riserate` decode divides the scale by the
masked word instead of inverting the encode, so the round trip is off by
more than one step; and the frequency decode folds whatever upper bits the
high word already carried into the value, so with a dirty high word even
`out1_frequency` decodes to a value 1 GHz away from the encoded 0. -/
theorem C5_multiword_counterexample :
    (out1_fallrate_encode (SG_FREQSCALE * 2 ^ 32) (0, 0) = .ok (0x10000, 0) ∧
      (0x10000 : ℕ) >>> 16 ≠ (0 : ℕ) >>> 16) ∧
    (out1_riserate_encode (2 * SG_FREQSCALE) (0, 0) = .ok (0, 2) ∧
      out1_riserate_decode (0, 2) = .ok (SG_FREQSCALE / 2) ∧
      ¬ |SG_FREQSCALE / 2 - 2 * SG_FREQSCALE| ≤ SG_FREQSCALE) ∧
    (out1_frequency_encode 0 (0x10000, 0) = .ok (0x10000, 0) ∧
      out1_frequency_decode (0x10000, 0) = 10 ^ 9 ∧
      ¬ |(10 ^ 9 : ℚ) - 0| ≤ SG_FREQSCALE) := by
  have hne : SG_FREQSCALE ≠ 0 := by norm_num [SG_FREQSCALE]
  have hq1 : (SG_FREQSCALE * 2 ^ 32) / SG_FREQSCALE = 2 ^ 32 := by
    rw [mul_comm, mul_div_assoc, div_self hne, mul_one]
  have hr1 : round ((SG_FREQSCALE * 2 ^ 32) / SG_FREQSCALE) = 2 ^ 32 := by
    rw [hq1, round_eq]
    norm_num
  have hq2 : (2 * SG_FREQSCALE) / SG_FREQSCALE = 2 := by
    rw [mul_div_assoc, div_self hne, mul_one]
  have hr2 : round ((2 * SG_FREQSCALE) / SG_FREQSCALE) = 2 := by
    rw [hq2, round_eq]
    norm_num
  refine ⟨⟨?_, by decide⟩, ⟨?_, ?_, ?_⟩, ⟨?_, ?_, ?_⟩⟩
  · simp [out1_fallrate_encode, usgn, hr1, Except.bind, Except.pure, pure, bind]
    decide
  · simp [out1_riserate_encode, usgn, hr2, Except.bind, Except.pure, pure, bind]
    decide
  · norm_num [out1_riserate_decode]
  · have h : SG_FREQSCALE / 2 - 2 * SG_FREQSCALE = -(3 / 2 * SG_FREQSCALE) := by ring
    rw [h, abs_neg, abs_of_nonneg (by norm_num [SG_FREQSCALE])]
    norm_num [SG_FREQSCALE]
  · simp [out1_frequency_encode, usgn, Except.bind, Except.pure, pure, bind]
    decide
  · have h : ((0x10000 <<< 32) ||| 0 : ℕ) = 2 ^ 48 := by decide
    simp only [out1_frequency_decode, h]
    norm_num [SG_FREQSCALE]
  · norm_num [SG_FREQSCALE]

/-- C5 amended (theorem): for the `out1_frequency` and `out2_frequency`
fields and every value whose scaled rounding lies in the 48-bit range,
encode merges `round(f/scale)`'s bits 32..47 into the low 16 bits of the
high word, leaves the high word's upper 16 bits exactly as they were, and
stores bits 0..31 in the low word; and whenever the high word's upper 16
bits were zero, decoding the resulting pair recovers `f` to within one
scale step. -/
theorem C5_frequency_encode_amended (f : ℚ) (old : ℕ × ℕ)
    (h0 : 0 ≤ round (f / SG_FREQSCALE)) (h48 : round (f / SG_FREQSCALE) < 2 ^ 48) :
    (∃ hi lo, out1_frequency_encode f old = .ok (hi, lo) ∧
      hi &&& 0xFFFF0000 = old.1 &&& 0xFFFF0000 ∧
      hi &&& 0xFFFF = (round (f / SG_FREQSCALE)).toNat / 2 ^ 32 ∧
      lo = (round (f / SG_FREQSCALE)).toNat % 2 ^ 32 ∧
      (old.1 &&& 0xFFFF0000 = 0 → |out1_frequency_decode (hi, lo) - f| ≤ SG_FREQSCALE)) ∧
    (∃ hi lo, out2_frequency_encode f old = .ok (hi, lo) ∧
      hi &&& 0xFFFF0000 = old.1 &&& 0xFFFF0000 ∧
      hi &&& 0xFFFF = (round (f / SG_FREQSCALE)).toNat / 2 ^ 32 ∧
      lo = (round (f / SG_FREQSCALE)).toNat % 2 ^ 32 ∧
      (old.1 &&& 0xFFFF0000 = 0 → |out2_frequency_decode (hi, lo) - f| ≤ SG_FREQSCALE)) := by
  have he : ∀ (g : ℚ) (o : ℕ × ℕ), out2_frequency_encode g o = out1_frequency_encode g o :=
    fun _ _ => rfl
  have hd : ∀ p : ℕ × ℕ, out2_frequency_decode p = out1_frequency_decode p := fun _ => rfl
  refine ⟨freq_pair_spec f old h0 h48, ?_⟩
  simpa only [he, hd] using freq_pair_spec f old h0 h48

/-- Witness for C5's amended theorem at `f = 1 MHz`, zeroed registers. -/
theorem C5_frequency_encode_amended_witness :
    0 ≤ round ((10 ^ 6 : ℚ) / SG_FREQSCALE) ∧ round ((10 ^ 6 : ℚ) / SG_FREQSCALE) < 2 ^ 48 ∧
    ((∃ hi lo, out1_frequency_encode (10 ^ 6) ((0 : ℕ), (0 : ℕ)) = .ok (hi, lo) ∧
      hi &&& 0xFFFF0000 = ((0 : ℕ), (0 : ℕ)).1 &&& 0xFFFF0000 ∧
      hi &&& 0xFFFF = (round ((10 ^ 6 : ℚ) / SG_FREQSCALE)).toNat / 2 ^ 32 ∧
      lo = (round ((10 ^ 6 : ℚ) / SG_FREQSCALE)).toNat % 2 ^ 32 ∧
      (((0 : ℕ), (0 : ℕ)).1 &&& 0xFFFF0000 = 0 →
        |out1_frequency_decode (hi, lo) - 10 ^ 6| ≤ SG_FREQSCALE)) ∧
    (∃ hi lo, out2_frequency_encode (10 ^ 6) ((0 : ℕ), (0 : ℕ)) = .ok (hi, lo) ∧
      hi &&& 0xFFFF0000 = ((0 : ℕ), (0 : ℕ)).1 &&& 0xFFFF0000 ∧
      hi &&& 0xFFFF = (round ((10 ^ 6 : ℚ) / SG_FREQSCALE)).toNat / 2 ^ 32 ∧
      lo = (round ((10 ^ 6 : ℚ) / SG_FREQSCALE)).toNat % 2 ^ 32 ∧
      (((0 : ℕ), (0 : ℕ)).1 &&& 0xFFFF0000 = 0 →
        |out2_frequency_decode (hi, lo) - 10 ^ 6| ≤ SG_FREQSCALE))) := by
  have hround : round ((10 ^ 6 : ℚ) / SG_FREQSCALE) = 281474976711 := by
    rw [round_eq]
    norm_num [SG_FREQSCALE]
  refine ⟨by rw [hround]; norm_num, by rw [hround]; norm_num, ?_⟩
  exact C5_frequency_encode_amended (10 ^ 6) ((0 : ℕ), (0 : ℕ))
    (by rw [hround]; norm_num) (by rw [hround]; norm_num)

/-- Staged attribute state left by `synth_sinewave(1, 1.0, 1e6)` on a
fresh instrument (C3's scenario). -/
def C3staged : SigGenState :=
  { out1_waveform := some SG_WAVE_SINE
    out1_enable := some true
    out1_amplitude := some 1
    out1_frequency := some (10 ^ 6)
    out1_offset := some 0
    out1_amp_pc := some 1 }

/-- C3 (code_bug): `synth_sinewave(1, 1.0, 1e6)` followed by `commit()`
over zeroed registers leaves `REG_SG_WAVEFORMS = 1` (enable bit set,
waveform bits 4..6 all zero for sine); the enable, amplitude and
frequency fields decode as the claim states, but the waveform decode
lambda reads bits 0..2 (its `rval & 0x70 >> 4` parses as `rval & 7`) and
returns `SG_WAVE_SQUARE`, not `SG_WAVE_SINE`. -/
theorem C3_sine_commit_decodes :
    ((commit ((synth_sinewave 1 1 (10 ^ 6) 0 none SigGenState.empty).1) zeroRegs).map
        fun regs => (regs REG_SG_WAVEFORMS, regs REG_SG_AMP1, regs REG_SG_FREQ1_H,
          regs REG_SG_FREQ1_L, regs REG_SG_PRECLIP))
      = .ok (1, 16384, 65, 2302102471, 1) ∧
    out1_waveform_decode 1 = SG_WAVE_SQUARE ∧
    SG_WAVE_SQUARE ≠ SG_WAVE_SINE ∧
    out1_enable_decode 1 = 1 ∧
    out1_amplitude_decode 16384 = 1 ∧
    |out1_frequency_decode (65, 2302102471) - 10 ^ 6| ≤ SG_FREQSCALE := by
  have hr : round ((10 ^ 6 : ℚ) / SG_FREQSCALE) = 281474976711 := by
    rw [round_eq]
    norm_num [SG_FREQSCALE]
  have hfreq : usgn ((10 ^ 6 : ℚ) / SG_FREQSCALE) 48 = .ok 281474976711 := by
    simp only [usgn, hr]
    decide
  have hamp : usgn ((1 : ℚ) / SG_AMPSCALE) 32 = .ok 16384 := by
    have h : round ((1 : ℚ) / SG_AMPSCALE) = 16384 := by
      rw [round_eq]
      norm_num [SG_AMPSCALE]
    simp only [usgn, h]
    decide
  have hoffq : sgn ((0 : ℚ) / SG_AMPSCALE) 16 = .ok 0 := by
    have h : round ((0 : ℚ) / SG_AMPSCALE) = 0 := by
      rw [round_eq]
      norm_num [SG_AMPSCALE]
    simp only [sgn, h]
    decide
  have hpc1 : usgn ((1 : ℚ) / 1) 16 = .ok 1 := by
    have h : round ((1 : ℚ) / 1) = 1 := by
      rw [round_eq]
      norm_num
    simp only [usgn, h]
    decide
  have hapc : ∀ old : ℕ, out1_amp_pc_encode 1 old = .ok ((old &&& 0xFFFF0000) ||| 1) := by
    intro old
    simp only [out1_amp_pc_encode]
    rw [if_neg one_ne_zero, hpc1]
    rfl
  have hsetW : ∀ s : SigGenState,
      set_out1_waveform SG_WAVE_SINE s = ({ s with out1_waveform := some SG_WAVE_SINE }, none) :=
    fun s => rfl
  have hsetE : ∀ s : SigGenState,
      set_out1_enable true s = ({ s with out1_enable := some true }, none) :=
    fun s => rfl
  have hsetA : ∀ s : SigGenState,
      set_out1_amplitude 1 s = ({ s with out1_amplitude := some 1 }, none) := by
    intro s
    simp only [set_out1_amplitude, hamp]
    rfl
  have hsetF : ∀ s : SigGenState,
      set_out1_frequency (10 ^ 6) s = ({ s with out1_frequency := some (10 ^ 6) }, none) := by
    intro s
    simp only [set_out1_frequency, hfreq]
    rfl
  have hsetO : ∀ s : SigGenState,
      set_out1_offset 0 s = ({ s with out1_offset := some 0 }, none) := by
    intro s
    simp only [set_out1_offset, hoffq]
    rfl
  have hsetP : ∀ s : SigGenState,
      set_out1_amp_pc 1 s = ({ s with out1_amp_pc := some 1 }, none) := by
    intro s
    simp only [set_out1_amp_pc]
    rw [if_neg one_ne_zero, hpc1]
    rfl
  have hstage : (synth_sinewave 1 1 (10 ^ 6) 0 none SigGenState.empty).1 = C3staged := by
    simp only [synth_sinewave]
    simp only [if_true, pyOrOne, andThen, hsetW, hsetE, hsetA, hsetF, hsetO, hsetP,
      C3staged, SigGenState.empty]
  refine ⟨?_, by decide, by decide, by decide, ?_, ?_⟩
  · rw [hstage]
    simp only [commit, C3staged, stepO, stepE, stepW, liftOpt,
      out1_frequency_encode, out1_offset_encode, out1_amplitude_encode,
      hfreq, hamp, hoffq, hapc, Except.bind, Except.pure, Except.map]
    decide
  · norm_num [out1_amplitude_decode, SG_AMPSCALE]
  · have h : ((65 <<< 32 : ℕ) ||| 2302102471) = 281474976711 := by decide
    simp only [out1_frequency_decode, h]
    rw [abs_le]
    constructor <;> norm_num [SG_FREQSCALE]
